import Mathlib

/-!
Shallow embedding of `issue-roulette` (src/main.rs): a CLI tool that fetches a
user's repositories from the GitHub REST API, filters them, picks one at random,
fetches its issues and prints one at random.

The network layer is modelled by an `api : String → HttpResponse` oracle mapping
a request URL to the response, and JSON deserialization (a serde/reqwest
responsibility, out of scope per the spec) by parse oracles
`String → Except String (List _)`.  The process-global RNG
(`rand::thread_rng` with `SliceRandom::choose`, which draws a uniform index in
`[0, len)`) is modelled by a seed `Nat` reduced modulo the list length.
Panics via `.expect(msg)` are modelled as terminal `RunError` values carrying
the same message; stdout `println!` lines are collected in order.
-/

/-- `struct Repo` (main.rs lines 25-31). -/
structure Repo where
  full_name : String
  fork : Bool
  has_issues : Bool
  open_issues : Nat
deriving Repr, DecidableEq

/-- `struct Issue` (main.rs lines 39-44). -/
structure Issue where
  title : String
  number : Nat
  html_url : String
deriving Repr, DecidableEq

/-- `struct Args` (main.rs lines 9-23): `username` is a required positional-free
flag, `include_forked_repos` a boolean flag, `token` optional. -/
structure Args where
  username : String
  include_forked_repos : Bool
  token : Option String
deriving Repr, DecidableEq

/-- clap argument parsing for `Args`: `username: String` has no default and no
`Option`, so clap rejects a command line without `--username` in every mode,
token present or not, and the process exits before `main`'s body runs. -/
def parseArgs (usernameArg : Option String) (include_forked_repos : Bool)
    (tokenArg : Option String) : Except String Args :=
  match usernameArg with
  | some u => Except.ok { username := u, include_forked_repos := include_forked_repos, token := tokenArg }
  | none => Except.error "the following required arguments were not provided: --username <USERNAME>"

/-- An HTTP response as seen by the program: status code and body text. -/
structure HttpResponse where
  status : Nat
  body : String
deriving Repr, DecidableEq

/-- Errors of the two fetch paths: `BadRequestError(u16, String)`
(main.rs lines 104-111) for an explicitly checked non-OK status, and the
reqwest decode error produced when `.json()` fails on the body. -/
inductive FetchError where
  | badRequest (status : Nat) (body : String)
  | decode (msg : String)
deriving Repr, DecidableEq

/-- `impl Display for BadRequestError` (main.rs line 108): `[{status}]: {body}`. -/
def FetchError.message : FetchError → String
  | .badRequest s b => "[" ++ toString s ++ "]: " ++ b
  | .decode m => m

/-- Terminal conditions of `main`: each `.expect(msg)` panic, plus the clap
parse failure that precedes `main`'s body. -/
inductive RunError where
  | configError (msg : String)
  | failedToken
  | failedRepos (e : FetchError)
  | noViableRepos
  | failedIssues (e : FetchError)
  | noViableIssue
deriving Repr, DecidableEq

/-- The `.expect` messages of main.rs lines 56, 63, 73, 76, 79. -/
def RunError.message : RunError → String
  | .configError m => m
  | .failedToken => "Failed to build Auth token header."
  | .failedRepos _ => "Failed to retrieve repositories."
  | .noViableRepos => "No viable repos to choose issues from."
  | .failedIssues _ => "Failed to retrieve issues."
  | .noViableIssue => "No viable issue found."

/-- Validity of a byte of an HTTP header value per `HeaderValue::from_str`
(http crate): horizontal tab, or a visible/obs-text byte (32..=255 except 127).
Characters above U+00FF encode in UTF-8 as bytes ≥ 0x80, all valid, so the
check is stated per character. -/
def isValidHeaderChar (c : Char) : Bool :=
  c.toNat == 9 || (32 ≤ c.toNat && c.toNat != 127)

/-- A string is a valid HTTP header value iff all its characters are. -/
def isValidHeaderValue (s : String) : Bool :=
  s.data.all isValidHeaderChar

/-- `token.or(std::env::var("ISSUE_ROULETTE_TOKEN").ok())` (main.rs line 159):
the CLI token, falling back to the environment variable. -/
def resolveToken (cliToken envToken : Option String) : Option String :=
  cliToken.or envToken

/-- `get_token` (main.rs lines 156-165): resolve the token, and if present build
the header value `Bearer <token>`, failing with `InvalidHeaderValue` when that
string is not a legal header value. -/
def get_token (cliToken envToken : Option String) : Except String (Option String) :=
  match resolveToken cliToken envToken with
  | some t =>
    if isValidHeaderValue ("Bearer " ++ t) then Except.ok (some ("Bearer " ++ t))
    else Except.error "InvalidHeaderValue"
  | none => Except.ok none

/-- The reqwest client as configured by `build_http_client`
(main.rs lines 83-102): fixed user agent and default headers. -/
structure HttpClient where
  user_agent : String
  headers : List (String × String)
deriving Repr, DecidableEq

/-- `build_http_client` (main.rs lines 83-102): Accept and API-version headers
always; the Authorization header only when a token header value is present. -/
def build_http_client (tokenHeader : Option String) : HttpClient :=
  { user_agent := "issue-roulette",
    headers :=
      [("Accept", "application/vnd.github+json"),
       ("X-Github-Api-Version", "2022-11-28")] ++
      (match tokenHeader with
       | some v => [("Authorization", v)]
       | none => []) }

/-- URL of `get_all_repos`' request (main.rs line 115). -/
def allReposUrl : String := "https://api.github.com/user/repos?per_page=100"

/-- URL of `get_public_repos`' request (main.rs lines 134-137). -/
def publicReposUrl (username : String) : String :=
  "https://api.github.com/users/" ++ username ++ "/repos?per_page=100"

/-- URL of `get_issues`' request (main.rs lines 146-149). -/
def issuesUrl (repo : Repo) : String :=
  "https://api.github.com/repos/" ++ repo.full_name ++ "/issues"

/-- The repository-listing URL chosen by the `match token` in `main`
(main.rs lines 59-62). -/
def reposRequestUrl (tokenHeader : Option String) (username : String) : String :=
  match tokenHeader with
  | some _ => allReposUrl
  | none => publicReposUrl username

/-- `get_all_repos` (main.rs lines 113-127): on any status other than 200 OK,
return `BadRequestError(status, body)`; otherwise decode the body. -/
def get_all_repos (parseRepos : String → Except String (List Repo))
    (res : HttpResponse) : Except FetchError (List Repo) :=
  if res.status ≠ 200 then Except.error (FetchError.badRequest res.status res.body)
  else
    match parseRepos res.body with
    | Except.ok repos => Except.ok repos
    | Except.error m => Except.error (FetchError.decode m)

/-- `get_public_repos` (main.rs lines 129-142): the status is never inspected;
the body is decoded directly via `.json()`. -/
def get_public_repos (parseRepos : String → Except String (List Repo))
    (res : HttpResponse) : Except FetchError (List Repo) :=
  match parseRepos res.body with
  | Except.ok repos => Except.ok repos
  | Except.error m => Except.error (FetchError.decode m)

/-- `get_issues` (main.rs lines 144-154): like `get_public_repos`, no status
check, direct `.json()` decode. -/
def get_issues (parseIssues : String → Except String (List Issue))
    (res : HttpResponse) : Except FetchError (List Issue) :=
  match parseIssues res.body with
  | Except.ok issues => Except.ok issues
  | Except.error m => Except.error (FetchError.decode m)

/-- `Rng::gen_range(0..bound)` for a uniformly drawn seed: the seed reduced
modulo the bound, uniform over indices when the seed is uniform. -/
def gen_range (seed bound : Nat) : Nat := seed % bound

/-- `SliceRandom::choose` (rand crate), as called on main.rs lines 71-73 and
77-79: `None` on an empty slice, otherwise the element at a uniform index. -/
def sliceChoose {α : Type} (l : List α) (seed : Nat) : Option α :=
  if l.length = 0 then none else l.get? (gen_range seed l.length)

/-- The two `.filter` calls of `main` (main.rs lines 66-70): keep repositories
with issues enabled and at least one open issue, then drop forks unless
`--include-forked-repos` was passed. -/
def filterRepos (include_forked_repos : Bool) (repos : List Repo) : List Repo :=
  (repos.filter (fun repo => repo.has_issues && decide (repo.open_issues > 0))).filter
    (fun repo => include_forked_repos || !repo.fork)

/-- `impl Display for Issue` (main.rs lines 46-50): `[{number}] {title} -> {html_url}`. -/
def Issue.display (issue : Issue) : String :=
  "[" ++ toString issue.number ++ "] " ++ issue.title ++ " -> " ++ issue.html_url

/-- `println!("🌟🦄 {} 🦄🌟", issue)` (main.rs line 80). -/
def formatIssueLine (issue : Issue) : String :=
  "🌟🦄 " ++ Issue.display issue ++ " 🦄🌟"

/-- `println!("Choosing issue from {} repositories...", repos.len())`
(main.rs line 65). -/
def choosingLine (n : Nat) : String :=
  "Choosing issue from " ++ toString n ++ " repositories..."

/-- Observable outcome of one run: stdout lines in order, the URLs requested in
order, and the terminal error if the run aborted. -/
structure RunResult where
  stdout : List String
  requests : List String
  err : Option RunError
deriving Repr, DecidableEq

/-- The tail of `main` after the repositories were retrieved
(main.rs lines 65-80): print the progress line, filter, choose a repository
(panic if none), fetch its issues, choose an issue (panic if none), print it. -/
def runPipeline (parseIssues : String → Except String (List Issue))
    (api : String → HttpResponse) (include_forked_repos : Bool)
    (repos : List Repo) (seed1 seed2 : Nat) (reposUrl : String) : RunResult :=
  let line1 := choosingLine repos.length
  match sliceChoose (filterRepos include_forked_repos repos) seed1 with
  | none => { stdout := [line1], requests := [reposUrl], err := some RunError.noViableRepos }
  | some repo =>
    match get_issues parseIssues (api (issuesUrl repo)) with
    | Except.error e =>
      { stdout := [line1], requests := [reposUrl, issuesUrl repo],
        err := some (RunError.failedIssues e) }
    | Except.ok issues =>
      match sliceChoose issues seed2 with
      | none =>
        { stdout := [line1], requests := [reposUrl, issuesUrl repo],
          err := some RunError.noViableIssue }
      | some issue =>
        { stdout := [line1, formatIssueLine issue],
          requests := [reposUrl, issuesUrl repo], err := none }

/-- `main` (main.rs lines 52-81), after clap parsing: resolve the token (panic
on an invalid header value, before any request), build the client, fetch the
repository list from the endpoint selected by token presence (panic on fetch
error), then run the selection pipeline. -/
def runProgram (parseRepos : String → Except String (List Repo))
    (parseIssues : String → Except String (List Issue))
    (api : String → HttpResponse) (cliToken envToken : Option String)
    (username : String) (include_forked_repos : Bool) (seed1 seed2 : Nat) : RunResult :=
  match get_token cliToken envToken with
  | Except.error _ => { stdout := [], requests := [], err := some RunError.failedToken }
  | Except.ok tokenHeader =>
    let _client := build_http_client tokenHeader
    let url := reposRequestUrl tokenHeader username
    let reposResult :=
      match tokenHeader with
      | some _ => get_all_repos parseRepos (api url)
      | none => get_public_repos parseRepos (api url)
    match reposResult with
    | Except.error e => { stdout := [], requests := [url], err := some (RunError.failedRepos e) }
    | Except.ok repos => runPipeline parseIssues api include_forked_repos repos seed1 seed2 url

/-- The whole process: clap argument parsing (which exits on a missing
`--username` before `main`'s body), then `runProgram`. -/
def runCli (usernameArg : Option String) (include_forked_repos : Bool)
    (cliToken envToken : Option String)
    (parseRepos : String → Except String (List Repo))
    (parseIssues : String → Except String (List Issue))
    (api : String → HttpResponse) (seed1 seed2 : Nat) : RunResult :=
  match parseArgs usernameArg include_forked_repos cliToken with
  | Except.error m => { stdout := [], requests := [], err := some (RunError.configError m) }
  | Except.ok args =>
    runProgram parseRepos parseIssues api args.token envToken args.username
      args.include_forked_repos seed1 seed2

/-- The repository of the spec's end-to-end mock scenario. -/
def mockRepo : Repo :=
  { full_name := "a/b", fork := false, has_issues := true, open_issues := 3 }

/-- The issue of the spec's end-to-end mock scenario. -/
def mockIssue : Issue :=
  { title := "Fix bug", number := 7, html_url := "http://x/7" }

/-- Parse oracle that always yields the mock repository list. -/
def parseReposMock : String → Except String (List Repo) := fun _ => Except.ok [mockRepo]

/-- Parse oracle that always yields the mock issue list. -/
def parseIssuesMock : String → Except String (List Issue) := fun _ => Except.ok [mockIssue]

/-- API oracle that answers 200 OK with an empty body to every request. -/
def apiOk : String → HttpResponse := fun _ => { status := 200, body := "" }

/-- Every branch of the post-fetch pipeline records the repository-listing URL
as its first request. -/
theorem runPipeline_requests_head (parseIssues : String → Except String (List Issue))
    (api : String → HttpResponse) (inc : Bool) (repos : List Repo)
    (s1 s2 : Nat) (url : String) :
    (runPipeline parseIssues api inc repos s1 s2 url).requests.head? = some url := by
  unfold runPipeline
  split
  · rfl
  · split
    · rfl
    · split <;> rfl

/-- C1: the repository filter keeps a repository iff `has_issues` is true,
`open_issues > 0`, and (`include_forked_repos` or not a fork). -/
theorem c1_filter_predicate (include_forked_repos : Bool) (repos : List Repo) (r : Repo) :
    r ∈ filterRepos include_forked_repos repos ↔
      r ∈ repos ∧ (r.has_issues = true ∧ r.open_issues > 0 ∧
        (include_forked_repos = true ∨ r.fork = false)) := by
  simp only [filterRepos, List.mem_filter, Bool.and_eq_true, decide_eq_true_eq,
    Bool.or_eq_true, Bool.not_eq_true']
  tauto

/-- C4: with a resolved token the repository fetch targets
`/user/repos?per_page=100`; without one it targets
`/users/{username}/repos?per_page=100`; and the first request of any run whose
token resolution succeeded is exactly that URL. -/
theorem c4_endpoint_selection (u t : String) :
    reposRequestUrl (some t) u = "https://api.github.com/user/repos?per_page=100" ∧
    reposRequestUrl none u = "https://api.github.com/users/" ++ u ++ "/repos?per_page=100" ∧
    ∀ pr pi api cliToken envToken inc s1 s2 tok,
      get_token cliToken envToken = Except.ok tok →
      (runProgram pr pi api cliToken envToken u inc s1 s2).requests.head? =
        some (reposRequestUrl tok u) := by
  refine ⟨rfl, rfl, ?_⟩
  intro pr pi api cliToken envToken inc s1 s2 tok h
  cases tok with
  | none =>
    simp only [runProgram, h, reposRequestUrl]
    cases hres : get_public_repos pr (api (publicReposUrl u)) with
    | error e => simp [hres]
    | ok repos => simp [hres, runPipeline_requests_head]
  | some t2 =>
    simp only [runProgram, h, reposRequestUrl]
    cases hres : get_all_repos pr (api allReposUrl) with
    | error e => simp [hres]
    | ok repos => simp [hres, runPipeline_requests_head]

/-- C4 witness: an unauthenticated run's first request is the public endpoint. -/
theorem c4_witness :
    (runProgram parseReposMock parseIssuesMock apiOk none none "alice" false 0 0).requests.head? =
      some (reposRequestUrl none "alice") :=
  (c4_endpoint_selection "alice" "x").2.2 parseReposMock parseIssuesMock apiOk
    none none false 0 0 none rfl

/-- C5: an explicit CLI token wins over the environment variable; with neither,
token resolution yields `none`, the client carries no Authorization header, and
the public endpoint is used. -/
theorem c5_token_resolution (envToken : Option String) (t u : String) :
    resolveToken (some t) envToken = some t ∧
    get_token none none = Except.ok none ∧
    (∀ p ∈ (build_http_client none).headers, p.1 ≠ "Authorization") ∧
    reposRequestUrl none u = publicReposUrl u := by
  refine ⟨rfl, rfl, ?_, rfl⟩
  intro p hp
  simp only [build_http_client, List.append_nil, List.mem_cons, List.not_mem_nil,
    or_false] at hp
  rcases hp with h | h <;> simp [h]

/-- Parse oracle that always fails, as serde does on a non-JSON body such as
`Not Found`. -/
def parseReposFail : String → Except String (List Repo) :=
  fun _ => Except.error "error decoding response body"

/-- C2 counterexample: in unauthenticated mode a 404 response does NOT yield an
error carrying the status code and body — `get_public_repos` never inspects the
status, so it either succeeds outright (body parses) or returns a bare decode
error without the status code. -/
theorem c2_counterexample :
    get_public_repos parseReposFail { status := 404, body := "Not Found" } =
      Except.error (FetchError.decode "error decoding response body") ∧
    get_public_repos parseReposMock { status := 404, body := "Not Found" } =
      Except.ok [mockRepo] :=
  ⟨rfl, rfl⟩

/-- C2 amended: only the authenticated fetch (`get_all_repos`) surfaces a
non-success status as an explicit, unretried error carrying the status code and
body text; the unauthenticated fetch behaves identically whatever the status. -/
theorem c2_amended_status_error (parseRepos : String → Except String (List Repo))
    (res : HttpResponse) (h : res.status ≠ 200) :
    get_all_repos parseRepos res =
      Except.error (FetchError.badRequest res.status res.body) ∧
    (FetchError.badRequest res.status res.body).message =
      "[" ++ toString res.status ++ "]: " ++ res.body ∧
    get_public_repos parseRepos res =
      get_public_repos parseRepos { status := 200, body := res.body } := by
  refine ⟨?_, rfl, rfl⟩
  simp [get_all_repos, h]

/-- C2 witness: a 404 with body `Not Found` on the authenticated path yields
`BadRequestError(404, "Not Found")`. -/
theorem c2_witness :
    get_all_repos parseReposMock { status := 404, body := "Not Found" } =
      Except.error (FetchError.badRequest 404 "Not Found") :=
  (c2_amended_status_error parseReposMock { status := 404, body := "Not Found" }
    (by decide)).1

/-- C3: an empty filtered repository list aborts the run with the descriptive
empty-selection panic and no issue request is ever issued; an empty fetched
issue list aborts with its own descriptive panic and no further request or
fallback. -/
theorem c3_empty_selection (parseIssues : String → Except String (List Issue))
    (api : String → HttpResponse) (inc : Bool) (repos : List Repo)
    (s1 s2 : Nat) (url : String) :
    (filterRepos inc repos = [] →
      runPipeline parseIssues api inc repos s1 s2 url =
        { stdout := [choosingLine repos.length], requests := [url],
          err := some RunError.noViableRepos } ∧
      RunError.noViableRepos.message = "No viable repos to choose issues from.") ∧
    (∀ repo, sliceChoose (filterRepos inc repos) s1 = some repo →
      get_issues parseIssues (api (issuesUrl repo)) = Except.ok [] →
      runPipeline parseIssues api inc repos s1 s2 url =
        { stdout := [choosingLine repos.length], requests := [url, issuesUrl repo],
          err := some RunError.noViableIssue } ∧
      RunError.noViableIssue.message = "No viable issue found.") := by
  constructor
  · intro h
    refine ⟨?_, rfl⟩
    simp [runPipeline, h, sliceChoose]
  · intro repo h1 h2
    refine ⟨?_, rfl⟩
    unfold runPipeline
    rw [h1]
    dsimp only
    rw [h2]
    simp [sliceChoose]

/-- C3 witness: with no repositories at all the pipeline stops with the
empty-selection error and only the repository request on record. -/
theorem c3_witness :
    runPipeline parseIssuesMock apiOk false [] 0 0 "u" =
      { stdout := [choosingLine 0], requests := ["u"],
        err := some RunError.noViableRepos } :=
  ((c3_empty_selection parseIssuesMock apiOk false [] 0 0 "u").1 rfl).1

/-- C6 counterexample: the decorated issue line is not the program's sole
output — the mock-scenario run first prints a progress line, so its stdout is
not the single expected line. -/
theorem c6_counterexample :
    (runProgram parseReposMock parseIssuesMock apiOk none none "a" false 0 0).stdout ≠
      ["🌟🦄 [7] Fix bug -> http://x/7 🦄🌟"] := by
  have h : (runProgram parseReposMock parseIssuesMock apiOk none none "a" false 0 0).stdout =
      [choosingLine 1, formatIssueLine mockIssue] := rfl
  rw [h]
  simp

/-- C6 amended: the mock-scenario success run prints exactly two lines — the
progress line `Choosing issue from 1 repositories...` followed by
`🌟🦄 [7] Fix bug -> http://x/7 🦄🌟`, the latter matching the claimed format
exactly — and performs exactly the two expected requests. -/
theorem c6_amended_output :
    runProgram parseReposMock parseIssuesMock apiOk none none "a" false 0 0 =
      { stdout := ["Choosing issue from 1 repositories...",
                   "🌟🦄 [7] Fix bug -> http://x/7 🦄🌟"],
        requests := [publicReposUrl "a", issuesUrl mockRepo],
        err := none } := by
  rfl

/-- C7 counterexample: even with a token supplied, a missing `--username` makes
the run fail at argument parsing with no request sent — authenticated mode does
not lift the username requirement. -/
theorem c7_counterexample :
    (runCli none false (some "sometoken") none parseReposMock parseIssuesMock apiOk 0 0).err =
      some (RunError.configError
        "the following required arguments were not provided: --username <USERNAME>") ∧
    (runCli none false (some "sometoken") none parseReposMock parseIssuesMock apiOk 0 0).requests =
      [] :=
  ⟨rfl, rfl⟩

/-- C7 amended: `--username` is required in every mode: without it the process
fails fatally at argument parsing before any network request, token or no
token; with it, the run proceeds into `main`'s body. -/
theorem c7_amended_username_required (inc : Bool) (cliToken envToken : Option String)
    (parseRepos : String → Except String (List Repo))
    (parseIssues : String → Except String (List Issue))
    (api : String → HttpResponse) (s1 s2 : Nat) :
    runCli none inc cliToken envToken parseRepos parseIssues api s1 s2 =
      { stdout := [], requests := [],
        err := some (RunError.configError
          "the following required arguments were not provided: --username <USERNAME>") } ∧
    ∀ u, runCli (some u) inc cliToken envToken parseRepos parseIssues api s1 s2 =
      runProgram parseRepos parseIssues api cliToken envToken u inc s1 s2 :=
  ⟨rfl, fun _ => rfl⟩

/-- C8: `SliceRandom::choose` only ever returns a member of the list, and over
a uniformly drawn seed each index of a length-`N` list is hit by exactly one of
the `N` seed residues — probability `1/N` per element. -/
theorem c8_uniform_selection {α : Type} (l : List α) (seed : Nat) :
    (∀ x, sliceChoose l seed = some x → x ∈ l) ∧
    (∀ i, i < l.length →
      ((Finset.range l.length).filter (fun m => gen_range m l.length = i)).card = 1) := by
  constructor
  · intro x hx
    unfold sliceChoose at hx
    split at hx
    · simp at hx
    · exact List.get?_mem hx
  · intro i hi
    have h : (Finset.range l.length).filter (fun m => gen_range m l.length = i) = {i} := by
      ext m
      simp only [Finset.mem_filter, Finset.mem_range, Finset.mem_singleton, gen_range]
      constructor
      · rintro ⟨hm, he⟩
        rw [Nat.mod_eq_of_lt hm] at he
        exact he
      · rintro rfl
        exact ⟨hi, Nat.mod_eq_of_lt hi⟩
    rw [h]
    exact Finset.card_singleton i

/-- C8 witness: seed 4 over a 3-element list picks index `4 % 3 = 1`, a member
of the list. -/
theorem c8_witness :
    sliceChoose [10, 20, 30] 4 = some 20 ∧ 20 ∈ [10, 20, 30] :=
  ⟨by decide, (c8_uniform_selection [10, 20, 30] 4).1 20 (by decide)⟩

/-- C9: once a token is resolved, the run is independent of the username — same
responses, same seeds, different usernames give identical requests and output,
because the authenticated endpoint never mentions the username. -/
theorem c9_username_irrelevant_when_authenticated
    (parseRepos : String → Except String (List Repo))
    (parseIssues : String → Except String (List Issue))
    (api : String → HttpResponse) (cliToken envToken : Option String)
    (u1 u2 t : String) (inc : Bool) (s1 s2 : Nat)
    (h : resolveToken cliToken envToken = some t) :
    runProgram parseRepos parseIssues api cliToken envToken u1 inc s1 s2 =
      runProgram parseRepos parseIssues api cliToken envToken u2 inc s1 s2 := by
  unfold runProgram get_token
  rw [h]
  dsimp only
  by_cases hv : isValidHeaderValue ("Bearer " ++ t) = true
  · rw [if_pos hv]
    rfl
  · rw [if_neg hv]

/-- C9 witness: with a resolved token, runs for usernames `alice` and `bob`
coincide. -/
theorem c9_witness :
    runProgram parseReposMock parseIssuesMock apiOk (some "tkn") none "alice" false 0 0 =
      runProgram parseReposMock parseIssuesMock apiOk (some "tkn") none "bob" false 0 0 :=
  c9_username_irrelevant_when_authenticated parseReposMock parseIssuesMock apiOk
    (some "tkn") none "alice" "bob" "tkn" false 0 0 rfl

/-- C10: a resolved token that cannot form the header value `Bearer <token>`
makes `get_token` fail and the run abort with no request sent; a valid one
yields exactly `Bearer <token>`; no resolved token yields `none`. -/
theorem c10_token_header_validation (cliToken envToken : Option String) (t : String) :
    (resolveToken cliToken envToken = some t →
      isValidHeaderValue ("Bearer " ++ t) = false →
      get_token cliToken envToken = Except.error "InvalidHeaderValue" ∧
      ∀ parseRepos parseIssues api u inc s1 s2,
        runProgram parseRepos parseIssues api cliToken envToken u inc s1 s2 =
          { stdout := [], requests := [], err := some RunError.failedToken }) ∧
    (resolveToken cliToken envToken = some t →
      isValidHeaderValue ("Bearer " ++ t) = true →
      get_token cliToken envToken = Except.ok (some ("Bearer " ++ t))) ∧
    (resolveToken cliToken envToken = none →
      get_token cliToken envToken = Except.ok none) := by
  refine ⟨?_, ?_, ?_⟩
  · intro h hv
    have hg : get_token cliToken envToken = Except.error "InvalidHeaderValue" := by
      unfold get_token
      rw [h]
      simp [hv]
    refine ⟨hg, ?_⟩
    intro parseRepos parseIssues api u inc s1 s2
    unfold runProgram
    rw [hg]
  · intro h hv
    unfold get_token
    rw [h]
    simp [hv]
  · intro h
    unfold get_token
    rw [h]

/-- C10 witness: a token containing a newline is rejected before any request. -/
theorem c10_witness :
    get_token (some "a\nb") none = Except.error "InvalidHeaderValue" ∧
    runProgram parseReposMock parseIssuesMock apiOk (some "a\nb") none "alice" false 0 0 =
      { stdout := [], requests := [], err := some RunError.failedToken } := by
  have h := (c10_token_header_validation (some "a\nb") none "a\nb").1 rfl (by decide)
  exact ⟨h.1, h.2 parseReposMock parseIssuesMock apiOk "alice" false 0 0⟩
